import Mathlib

/-!
# Verification of the GeoNetwork MCP tool-handler layer

Shallow embedding of `src/handlers.ts` (class `ToolHandlers`): the
session-authentication handshake (`getAuthenticatedSession` and the identical
inline copy in `duplicateRecord`), the request-shaping logic of the privileged
handlers, and `searchRecords`.  Each handler is modelled as a pure function
from its configuration, its arguments and a "world" (the environment's answers
to the HTTP requests the handler issues) to the pair of
(the list of HTTP requests sent, in order) × (the handler's outcome).
JavaScript strings are Lean `String`s, JS numbers are `Int`, JS
`undefined`-able values are `Option`, JS truthiness is made explicit.
-/

namespace GN

/-! ## JS string primitives

`handlers.ts` extracts cookie tokens by `cookie.split(NAME)[1].split(";")[0]`
and tests markers with `String.prototype.includes`.  We implement both by
structural recursion on the character list so that every concrete instance is
kernel-evaluable. -/

/-- Does the character list start with the pattern? -/
def startsWithL : List Char → List Char → Bool
  | _, [] => true
  | [], _ :: _ => false
  | c :: cs, p :: ps => c == p && startsWithL cs ps

/-- The suffix strictly after the first occurrence of `pat`, if `pat` occurs
(JS `indexOf` + slice; `pat` is nonempty in all uses). -/
def afterFirstL (pat : List Char) : List Char → Option (List Char)
  | [] => if startsWithL [] pat then some [] else none
  | c :: cs =>
    if startsWithL (c :: cs) pat then some (List.drop pat.length (c :: cs))
    else afterFirstL pat cs

/-- Prefix up to (excluding) the first occurrence of the character `stop`. -/
def upToCharL (stop : Char) : List Char → List Char
  | [] => []
  | c :: cs => if c == stop then [] else c :: upToCharL stop cs

/-- Prefix up to (excluding) the next occurrence of `pat`
(JS `split(pat)[1]` stops at the following occurrence of `pat`). -/
def upToPatL (pat : List Char) : List Char → List Char
  | [] => []
  | c :: cs => if startsWithL (c :: cs) pat then [] else c :: upToPatL pat cs

/-- JS `s.includes(pat)` for nonempty `pat`. -/
def jsIncludes (s pat : String) : Bool :=
  (afterFirstL pat.data s.data).isSome

/-- JS `cookie.split(name)[1].split(";")[0]`, guarded by
`cookie.includes(name)`: `none` when `name` does not occur. -/
def tokenAfter (name cookie : String) : Option String :=
  match afterFirstL name.data cookie.data with
  | some rest => some (String.mk (upToCharL ';' (upToPatL name.data rest)))
  | none => none

/-- The `for (const cookie of cookies)`-loop of `handlers.ts`: each cookie that
contains `name` overwrites the token variable with the extracted value. -/
def scanCookies (name : String) (cookies : List String) (init : String) : String :=
  cookies.foldl
    (fun acc c =>
      match tokenAfter name c with
      | some t => t
      | none => acc)
    init

/-! ## JS truthiness on optional values -/

/-- JS truthiness of a possibly-`undefined` string (`""` and `undefined` are
falsy). -/
def jsTruthyStr : Option String → Bool
  | some s => !(s == "")
  | none => false

/-- JS `a || b` on possibly-`undefined` strings. -/
def jsOrStr (a b : Option String) : Option String :=
  if jsTruthyStr a then a else b

/-- JS truthiness of a possibly-`undefined` number (`0` and `undefined` are
falsy). -/
def jsTruthyInt : Option Int → Bool
  | some n => !(n == 0)
  | none => false

/-! ## Outbound HTTP requests

One constructor per distinct axios call site in `handlers.ts`, carrying the
data the call site computes. -/

/-- The body of the search endpoint (`searchRecords` builds it with JS object
spreads; a spread guarded by a falsy value contributes nothing, hence the
`Option` fields). `fromPos` is the JS field `from` (a Lean keyword). -/
structure SearchBody where
  fromPos : Int
  size : Int
  queryString : Option String
  aggBucket : Option String
  sort : Option (String × String)
  deriving DecidableEq, Repr

structure EditItem where
  xpath : String
  value : String
  deriving DecidableEq, Repr

inductive Request where
  /-- Request `POST {catalogueURL}/api/user/signin` (form-encoded credentials). -/
  | signinPost (username password : String)
  /-- Request `GET {baseURL}/site/info` with the given `Cookie` header. -/
  | siteInfoGet (cookie : String)
  /-- Request `PUT {baseURL}/records/batchediting?uuids=...` -/
  | batchEditPut (uuids : String) (body : List EditItem) (cookie : String)
  /-- Request `PUT {baseURL}/records/duplicate?sourceUuid=...` -/
  | duplicatePut (sourceUuid : String) (cookie : String)
  /-- Request `POST /search/records/_search` from `searchRecords`. -/
  | searchPost (body : SearchBody)
  /-- Request `POST /search/records/_search` with `{query: {term: {_id: idStr}}, size: 1}`
  from the duplicate-lookup. -/
  | lookupPost (idStr : String)
  /-- Request `GET {baseURL}/records/{uuid}/formatters/xml` -/
  | xmlFormatterGet (uuid : String) (cookie : String)
  /-- Request `PUT {baseURL}/records/{uuid}/tags` -/
  | tagsPut (uuid : String) (tags : List Int) (cookie : String)
  /-- Request `DELETE {baseURL}/records/{uuid}/tags` -/
  | tagsDelete (uuid : String) (tags : List Int) (cookie : String)
  /-- Request `PUT {baseURL}/records/{uuid}/attachments?url=...` -/
  | attachmentsPut (uuid url visibility : String) (approved : Bool) (cookie : String)
  /-- Request `DELETE {baseURL}/records/{uuid}/attachments/{resourceId}` -/
  | attachmentDelete (uuid resourceId : String) (approved : Bool) (cookie : String)
  deriving DecidableEq, Repr

/-- Requests that read or mutate catalogue state, as opposed to the two
authentication-infrastructure calls of the login handshake. -/
def Request.isCatalogueState : Request → Bool
  | .signinPost .. => false
  | .siteInfoGet .. => false
  | _ => true

def Request.isSignin : Request → Bool
  | .signinPost .. => true
  | _ => false

/-- Number of sign-in requests in a trace. -/
def countSignins (t : List Request) : Nat :=
  t.countP Request.isSignin

def Request.isLookup : Request → Bool
  | .lookupPost _ => true
  | _ => false

/-- Number of duplicate-lookup requests in a trace. -/
def countLookups (t : List Request) : Nat :=
  t.countP Request.isLookup

def Request.isBatchEdit : Request → Bool
  | .batchEditPut .. => true
  | _ => false

/-! ## Configuration and session acquisition -/

/-- Structure `HandlerConfig` of `types.ts`. -/
structure HandlerConfig where
  maxSearchResults : Int
  username : String
  password : String

/-- Environment answers for one run of the login handshake.
`none` models an axios rejection (network failure, or a status the call's
`validateStatus` refuses); `some cookies` carries the response's
`set-cookie` header strings. -/
structure SessionWorld where
  signinCookies : Option (List String)
  siteInfoCookies : Option (List String)

/-- What `getAuthenticatedSession` returns on success: the two extracted
tokens and the composed `Cookie` header. -/
structure Session where
  gnSessionId : String
  jsSessionId : String
  cookieHeader : String
  deriving DecidableEq, Repr

/-- The cookie-header construction of `handlers.ts` (both in
`getAuthenticatedSession` and inline in `duplicateRecord`): push
`JSESSIONID=...` if the secondary token is nonempty, then `GNSESSIONID=...`
if the primary token is nonempty, and join with `"; "`. -/
def buildCookieHeader (gn js : String) : String :=
  String.intercalate "; "
    ((if js == "" then [] else ["JSESSIONID=" ++ js]) ++
     (if gn == "" then [] else ["GNSESSIONID=" ++ gn]))

/-- Function `getAuthenticatedSession` of `handlers.ts`; `duplicateRecord` inlines a
line-for-line identical copy of the same logic, so it reuses this definition.
Returns the request trace and `some` session on completion, `none` when an
exception propagated (failed sign-in POST, or failed step-2 GET). -/
def getAuthenticatedSession (cfg : HandlerConfig) (w : SessionWorld) :
    List Request × Option Session :=
  let trace0 := [Request.signinPost cfg.username cfg.password]
  match w.signinCookies with
  | none => (trace0, none)
  | some cookies =>
    let gn := scanCookies "GNSESSIONID=" cookies ""
    let js := scanCookies "JSESSIONID=" cookies ""
    if js == "" then
      -- Step 2: the secondary token was not obtained; GET /site/info with the
      -- primary token (if any) as the cookie.  The source does not catch a
      -- failure here: it propagates.
      let cookie := if gn == "" then "" else "GNSESSIONID=" ++ gn
      let trace1 := trace0 ++ [Request.siteInfoGet cookie]
      match w.siteInfoCookies with
      | none => (trace1, none)
      | some sc =>
        let js2 := scanCookies "JSESSIONID=" sc js
        (trace1, some ⟨gn, js2, buildCookieHeader gn js2⟩)
    else
      (trace0, some ⟨gn, js, buildCookieHeader gn js⟩)

/-! ## Handler outcomes -/

/-- Outcome of one handler call: an in-band error result (`isError: true`,
returned, not thrown), a propagated exception, or a success payload. -/
inductive ToolResult (α : Type) where
  | errorResult (text : String)
  | thrown
  | success (payload : α)
  deriving DecidableEq, Repr

/-- The credential-error text each privileged handler returns. -/
def authRequiredMsg (tool : String) : String :=
  "Error: Authentication required for " ++ tool ++
    ". Please set CATALOGUE_USERNAME and CATALOGUE_PASSWORD in your .env file."

/-- The block every privileged handler repeats verbatim: check that both
credentials are configured (returning the in-band error with an empty trace
otherwise), run the login handshake, propagate its exception, and otherwise
continue with the obtained session. -/
def withAuth (tool : String) (cfg : HandlerConfig) (sw : SessionWorld)
    (rest : Session → List Request × ToolResult α) :
    List Request × ToolResult α :=
  if cfg.username == "" || cfg.password == "" then
    ([], .errorResult (authRequiredMsg tool))
  else
    let s := getAuthenticatedSession cfg sw
    match s.2 with
    | none => (s.1, .thrown)
    | some sess =>
      let r := rest sess
      (s.1 ++ r.1, r.2)

/-! ## searchRecords -/

/-- Structure `SearchRecordsArgs` of `types.ts`; every field is optional at the
protocol boundary and defaulted by destructuring in the handler. -/
structure SearchRecordsArgs where
  query : Option String
  fromPos : Option Int
  size : Option Int
  bucket : Option String
  sortBy : Option String
  sortOrder : Option String

/-- Expression `sortOrder?.toLowerCase().startsWith("desc") ? "desc" : "asc"`. -/
def normalizedSortOrder (sortOrder : Option String) : String :=
  match sortOrder with
  | some s => if s.toLower.startsWith "desc" then "desc" else "asc"
  | none => "asc"

/-- The search body `searchRecords` posts: defaults from destructuring,
`actualSize = Math.min(size, maxSize)`, and the three guarded spreads. -/
def buildSearchBody (cfg : HandlerConfig) (args : SearchRecordsArgs) : SearchBody :=
  let query := args.query.getD ""
  let size := args.size.getD 10
  let actualSize := min size cfg.maxSearchResults
  { fromPos := args.fromPos.getD 0
    size := actualSize
    queryString := if query == "" then none else some query
    aggBucket := if jsTruthyStr args.bucket then args.bucket else none
    sort :=
      match args.sortBy with
      | some f => if f == "" then none else some (f, normalizedSortOrder args.sortOrder)
      | none => none }

/-- The part of the search response the handler inspects:
`response.data.hits?.total?.value` (`none` when the path is absent). -/
structure SearchRespData where
  totalValue : Option Int

/-- The observable content of the handler's formatted response: the total hit
count and the `_warning` field attached to the response data (serialized into
the single text payload by `formatResponse`). -/
structure SearchOut where
  totalHits : Int
  warning : Option String
  deriving DecidableEq, Repr

/-- Function `searchRecords` of `handlers.ts`.  The world is the outcome of the one
`POST /search/records/_search` (`none` = axios rejection). -/
def searchRecords (cfg : HandlerConfig) (w : Option SearchRespData)
    (args : SearchRecordsArgs) : List Request × ToolResult SearchOut :=
  let body := buildSearchBody cfg args
  let trace := [Request.searchPost body]
  match w with
  | none => (trace, .thrown)
  | some resp =>
    -- `const totalHits = response.data.hits?.total?.value || 0`
    let totalHits := match resp.totalValue with
      | some v => if v == 0 then 0 else v
      | none => 0
    let warning :=
      if body.size < totalHits then
        some ("Results limited to " ++ toString body.size ++ " of " ++
          toString totalHits ++ " total. Use 'from' parameter to paginate.")
      else none
    (trace, .success ⟨totalHits, warning⟩)

/-! ## updateRecord -/

structure UpdateRecordArgs where
  uuid : String
  xpath : String
  value : String
  operation : Option String
  updateDateStamp : Option Bool

/-- The `switch (operation)` of `updateRecord`: `add` and `delete` have their
own cases; `replace` shares the `default` arm. -/
def wrapValue (operation value : String) : String :=
  if operation == "add" then "<gn_add>" ++ value ++ "</gn_add>"
  else if operation == "delete" then "<gn_delete/>"
  else "<gn_replace>" ++ value ++ "</gn_replace>"

structure UpdateWorld where
  session : SessionWorld
  /-- Does the `PUT /records/batchediting` succeed (`false` = axios rejection,
  rethrown by the handler's catch block)? -/
  putOk : Bool

def updateRecord (cfg : HandlerConfig) (w : UpdateWorld) (args : UpdateRecordArgs) :
    List Request × ToolResult String :=
  withAuth "update_record" cfg w.session fun sess =>
    let operation := args.operation.getD "replace"
    let editRequest := [EditItem.mk args.xpath (wrapValue operation args.value)]
    ([Request.batchEditPut args.uuid editRequest sess.cookieHeader],
     if w.putOk then .success ("Record " ++ args.uuid ++ " updated successfully")
     else .thrown)

/-! ## updateRecordTitle -/

structure UpdateRecordTitleArgs where
  uuid : String
  title : String

structure TitleWorld where
  session : SessionWorld
  /-- Body of `GET /records/{uuid}/formatters/xml`; `none` = the fetch threw
  (caught by the handler, which keeps the default schema). -/
  xml : Option String
  putOk : Bool

/-- The marker test of `updateRecordTitle` applied to fetched content:
`gmd` markers select ISO 19139, `mdb` markers (and no marker at all) leave
the default ISO 19115-3. -/
def detectSchema (xmlContent : String) : String :=
  if jsIncludes xmlContent "gmd:MD_Metadata" || jsIncludes xmlContent "xmlns:gmd=" then
    "iso19139"
  else if jsIncludes xmlContent "mdb:MD_Metadata" || jsIncludes xmlContent "xmlns:mdb=" then
    "iso19115-3"
  else "iso19115-3"

/-- Schema chosen by the handler given the outcome of the XML fetch
(`let schemaType = "iso19115-3"` initially; a caught fetch error keeps it). -/
def schemaOf (xml : Option String) : String :=
  match xml with
  | some content => detectSchema content
  | none => "iso19115-3"

/-- The title XPath selected per schema. -/
def titleXPath (schemaType : String) : String :=
  if schemaType == "iso19139" then
    "gmd:identificationInfo/*/gmd:citation/gmd:CI_Citation/gmd:title/gco:CharacterString"
  else
    "mdb:identificationInfo/*/mri:citation/cit:CI_Citation/cit:title/gco:CharacterString"

def updateRecordTitle (cfg : HandlerConfig) (w : TitleWorld)
    (args : UpdateRecordTitleArgs) : List Request × ToolResult (String × String) :=
  withAuth "update_record_title" cfg w.session fun sess =>
    let schemaType := schemaOf w.xml
    let xpath := titleXPath schemaType
    let editRequest := [EditItem.mk xpath ("<gn_replace>" ++ args.title ++ "</gn_replace>")]
    ([Request.xmlFormatterGet args.uuid sess.cookieHeader,
      Request.batchEditPut args.uuid editRequest sess.cookieHeader],
     if w.putOk then
       .success (schemaType,
         "Title of record " ++ args.uuid ++ " updated to \"" ++ args.title ++ "\"")
     else .thrown)

/-! ## Tag and attachment handlers -/

structure TagsArgs where
  uuid : String
  tags : List Int

structure SimpleWorld where
  session : SessionWorld
  callOk : Bool

def addRecordTags (cfg : HandlerConfig) (w : SimpleWorld) (args : TagsArgs) :
    List Request × ToolResult String :=
  withAuth "add_record_tags" cfg w.session fun sess =>
    ([Request.tagsPut args.uuid args.tags sess.cookieHeader],
     if w.callOk then .success ("Tags added to record " ++ args.uuid) else .thrown)

def deleteRecordTags (cfg : HandlerConfig) (w : SimpleWorld) (args : TagsArgs) :
    List Request × ToolResult String :=
  withAuth "delete_record_tags" cfg w.session fun sess =>
    ([Request.tagsDelete args.uuid args.tags sess.cookieHeader],
     if w.callOk then .success ("Tags removed from record " ++ args.uuid) else .thrown)

structure UploadResourceFromUrlArgs where
  metadataUuid : String
  url : String
  visibility : Option String
  approved : Option Bool

def uploadResourceFromUrl (cfg : HandlerConfig) (w : SimpleWorld)
    (args : UploadResourceFromUrlArgs) : List Request × ToolResult String :=
  withAuth "upload_resource_from_url" cfg w.session fun sess =>
    ([Request.attachmentsPut args.metadataUuid args.url
        (args.visibility.getD "PUBLIC") (args.approved.getD false) sess.cookieHeader],
     if w.callOk then
       .success ("Resource uploaded successfully from " ++ args.url ++
         " to record " ++ args.metadataUuid)
     else .thrown)

structure DeleteAttachmentArgs where
  metadataUuid : String
  resourceId : String
  approved : Option Bool

def deleteAttachment (cfg : HandlerConfig) (w : SimpleWorld)
    (args : DeleteAttachmentArgs) : List Request × ToolResult String :=
  withAuth "delete_attachment" cfg w.session fun sess =>
    ([Request.attachmentDelete args.metadataUuid args.resourceId
        (args.approved.getD false) sess.cookieHeader],
     if w.callOk then
       .success ("Attachment " ++ args.resourceId ++ " deleted from record " ++
         args.metadataUuid)
     else .thrown)

/-! ## duplicateRecord -/

structure DuplicateRecordArgs where
  metadataUuid : String
  group : Option String
  isChildOfSource : Option Bool
  targetUuid : Option String
  hasCategoryOfSource : Option Bool

/-- The shape of `response.data` of the duplicate PUT as the handler reads it:
an object (with the four fields the handler accesses, each possibly absent)
or a bare number.  On a bare number the field accesses yield `undefined` and
the `|| duplicateResult` fallback yields the number itself. -/
inductive DupData where
  | obj (uuid metadataUuid : Option String) (id metadataId : Option Int)
  | num (n : Int)
  deriving DecidableEq, Repr

/-- Assignment `let newUuid = duplicateResult.uuid || duplicateResult.metadataUuid`. -/
def dupNewUuid : DupData → Option String
  | .obj uuid metadataUuid _ _ => jsOrStr uuid metadataUuid
  | .num _ => none

/-- The JS value of `newId`: a number, or the raw (non-number) response
object that the final `|| duplicateResult` fallback produces. -/
inductive JsId where
  | num (n : Int)
  | objRef
  deriving DecidableEq, Repr

/-- Assignment `const newId = duplicateResult.id || duplicateResult.metadataId || duplicateResult`. -/
def dupNewId : DupData → JsId
  | .obj _ _ id metadataId =>
    match id with
    | some n => if n == 0 then
        (match metadataId with
         | some m => if m == 0 then .objRef else .num m
         | none => .objRef)
      else .num n
    | none =>
      match metadataId with
      | some m => if m == 0 then .objRef else .num m
      | none => .objRef
  | .num n => .num n

/-- One hit of the lookup search response, as the handler reads it:
`hits[0]._source?.uuid` and `hits[0]._id`. -/
structure Hit where
  sourceUuid : Option String
  hitId : String
  deriving DecidableEq, Repr

/-- The duplicated-record success payload (`formatResponse` serializes it;
a JS `undefined` `newUuid` is `none`). -/
structure DupResult where
  newId : JsId
  newUuid : Option String
  sourceUuid : String
  deriving DecidableEq, Repr

structure DuplicateWorld where
  session : SessionWorld
  /-- Field `response.data` of `PUT /records/duplicate`; `none` = the PUT threw
  (rethrown by the handler's catch block). -/
  dup : Option DupData
  /-- Field `hits` of the lookup search, when attempted; `none` = the lookup threw
  (caught: `newUuid` is left unchanged). -/
  lookup : Option (List Hit)

/-- Function `duplicateRecord` of `handlers.ts`.  Its credential check and login
handshake are a line-for-line copy of `withAuth`/`getAuthenticatedSession`. -/
def duplicateRecord (cfg : HandlerConfig) (w : DuplicateWorld)
    (args : DuplicateRecordArgs) : List Request × ToolResult DupResult :=
  withAuth "duplicate_record" cfg w.session fun sess =>
    let t0 := [Request.duplicatePut args.metadataUuid sess.cookieHeader]
    match w.dup with
    | none => (t0, .thrown)
    | some d =>
      let newUuid0 := dupNewUuid d
      match dupNewId d with
      | .objRef =>
        -- `typeof newId === "number"` fails: no lookup.
        (t0, .success ⟨.objRef, newUuid0, args.metadataUuid⟩)
      | .num n =>
        -- lookup iff `!newUuid && newId` (truthiness).
        if jsTruthyStr newUuid0 || n == 0 then
          (t0, .success ⟨.num n, newUuid0, args.metadataUuid⟩)
        else
          let t1 := t0 ++ [Request.lookupPost (toString n)]
          let newUuid :=
            match w.lookup with
            | none => newUuid0
            | some [] => newUuid0
            | some (h :: _) => jsOrStr h.sourceUuid (some h.hitId)
          (t1, .success ⟨.num n, newUuid, args.metadataUuid⟩)

/-! ## Trace predicates and helper lemmas -/

/-- Does a trace consist solely of authentication-infrastructure requests
(no request that reads or mutates catalogue state)? -/
def noStateTrace (t : List Request) : Bool :=
  t.all fun r => !r.isCatalogueState

/-- The login handshake sends either the sign-in POST alone or the sign-in
POST followed by one `GET /site/info`. -/
theorem session_trace_cases (cfg : HandlerConfig) (w : SessionWorld) :
    (getAuthenticatedSession cfg w).1 =
      [Request.signinPost cfg.username cfg.password] ∨
    ∃ c, (getAuthenticatedSession cfg w).1 =
      [Request.signinPost cfg.username cfg.password, Request.siteInfoGet c] := by
  rcases w with ⟨sc, si⟩
  cases sc with
  | none => exact Or.inl rfl
  | some cookies =>
    simp only [getAuthenticatedSession]
    by_cases h : (scanCookies "JSESSIONID=" cookies "" == "") = true
    · cases si with
      | none =>
        exact Or.inr ⟨if scanCookies "GNSESSIONID=" cookies "" == "" then ""
          else "GNSESSIONID=" ++ scanCookies "GNSESSIONID=" cookies "", by simp [h]⟩
      | some s2 =>
        exact Or.inr ⟨if scanCookies "GNSESSIONID=" cookies "" == "" then ""
          else "GNSESSIONID=" ++ scanCookies "GNSESSIONID=" cookies "", by simp [h]⟩
    · exact Or.inl (by simp [h])

/-- The login handshake itself issues exactly one sign-in request. -/
theorem session_countSignins (cfg : HandlerConfig) (w : SessionWorld) :
    countSignins (getAuthenticatedSession cfg w).1 = 1 := by
  rcases session_trace_cases cfg w with h | ⟨c, h⟩ <;> rw [h] <;> rfl

/-- The login handshake issues no catalogue-state request. -/
theorem session_nonstate (cfg : HandlerConfig) (w : SessionWorld) :
    noStateTrace (getAuthenticatedSession cfg w).1 = true := by
  rcases session_trace_cases cfg w with h | ⟨c, h⟩ <;> rw [h] <;> rfl

/-- A privileged handler whose configuration lacks a credential returns the
in-band error with an empty trace. -/
theorem withAuth_noCreds {α : Type} (tool : String) (cfg : HandlerConfig)
    (sw : SessionWorld) (rest : Session → List Request × ToolResult α)
    (h : cfg.username = "" ∨ cfg.password = "") :
    withAuth tool cfg sw rest = ([], .errorResult (authRequiredMsg tool)) := by
  have hb : (cfg.username == "" || cfg.password == "") = true := by
    rcases h with h | h <;> simp [h]
  simp [withAuth, hb]

/-- With credentials configured, a failed handshake propagates: the trace is
the handshake's and the result is the exception. -/
theorem withAuth_sessFail {α : Type} (tool : String) (cfg : HandlerConfig)
    (sw : SessionWorld) (rest : Session → List Request × ToolResult α)
    (hu : ¬cfg.username = "") (hp : ¬cfg.password = "")
    (h : (getAuthenticatedSession cfg sw).2 = none) :
    withAuth tool cfg sw rest = ((getAuthenticatedSession cfg sw).1, .thrown) := by
  have hb : (cfg.username == "" || cfg.password == "") = false := by
    simp [hu, hp]
  simp [withAuth, hb, h]

/-- With credentials configured and the handshake complete, the handler's own
requests follow the handshake's. -/
theorem withAuth_sessOk {α : Type} (tool : String) (cfg : HandlerConfig)
    (sw : SessionWorld) (rest : Session → List Request × ToolResult α)
    (sess : Session)
    (hu : ¬cfg.username = "") (hp : ¬cfg.password = "")
    (h : (getAuthenticatedSession cfg sw).2 = some sess) :
    withAuth tool cfg sw rest =
      ((getAuthenticatedSession cfg sw).1 ++ (rest sess).1, (rest sess).2) := by
  have hb : (cfg.username == "" || cfg.password == "") = false := by
    simp [hu, hp]
  simp [withAuth, hb, h]

/-- When the handshake throws, no privileged handler emits a catalogue-state
request, whatever its continuation would have sent. -/
theorem withAuth_sessFail_nonstate {α : Type} (tool : String)
    (cfg : HandlerConfig) (sw : SessionWorld)
    (rest : Session → List Request × ToolResult α)
    (h : (getAuthenticatedSession cfg sw).2 = none) :
    noStateTrace (withAuth tool cfg sw rest).1 = true := by
  by_cases hcred : cfg.username = "" ∨ cfg.password = ""
  · rw [withAuth_noCreds _ _ _ _ hcred]; rfl
  · push_neg at hcred
    rw [withAuth_sessFail _ _ _ _ hcred.1 hcred.2 h]
    exact session_nonstate cfg sw

/-- A handler whose continuation sends no sign-in request signs in exactly
once per call (with credentials configured). -/
theorem withAuth_countSignins {α : Type} (tool : String) (cfg : HandlerConfig)
    (sw : SessionWorld) (rest : Session → List Request × ToolResult α)
    (hu : ¬cfg.username = "") (hp : ¬cfg.password = "")
    (hrest : ∀ sess, countSignins (rest sess).1 = 0) :
    countSignins (withAuth tool cfg sw rest).1 = 1 := by
  cases hs : (getAuthenticatedSession cfg sw).2 with
  | none =>
    rw [withAuth_sessFail _ _ _ _ hu hp hs]
    exact session_countSignins cfg sw
  | some sess =>
    rw [withAuth_sessOk _ _ _ _ sess hu hp hs]
    have h1 := session_countSignins cfg sw
    simp only [countSignins, List.countP_append] at h1 ⊢
    rw [h1]
    have h2 := hrest sess
    simp only [countSignins] at h2
    rw [h2]

/-- Membership in a `noStateTrace` trace forces a non-state request. -/
theorem noStateTrace_not_mem {t : List Request} (ht : noStateTrace t = true)
    {r : Request} (hr : r ∈ t) : r.isCatalogueState = false := by
  simp only [noStateTrace, List.all_eq_true] at ht
  have := ht r hr
  simpa using this

/-- Every batch-edit request `updateRecord` emits targets the argument's
record and carries the one-element envelope payload. -/
theorem updateRecord_batchEdit_mem (cfg : HandlerConfig) (w : UpdateWorld)
    (args : UpdateRecordArgs) (u : String) (b : List EditItem) (c : String)
    (hmem : Request.batchEditPut u b c ∈ (updateRecord cfg w args).1) :
    u = args.uuid ∧
    b = [⟨args.xpath, wrapValue (args.operation.getD "replace") args.value⟩] := by
  by_cases hcred : cfg.username = "" ∨ cfg.password = ""
  · rw [updateRecord, withAuth_noCreds _ _ _ _ hcred] at hmem
    simp at hmem
  · push_neg at hcred
    cases hs : (getAuthenticatedSession cfg w.session).2 with
    | none =>
      rw [updateRecord, withAuth_sessFail _ _ _ _ hcred.1 hcred.2 hs] at hmem
      have h2 := noStateTrace_not_mem (session_nonstate cfg w.session) hmem
      simp [Request.isCatalogueState] at h2
    | some sess =>
      rw [updateRecord, withAuth_sessOk _ _ _ _ sess hcred.1 hcred.2 hs] at hmem
      simp only [List.mem_append] at hmem
      rcases hmem with hmem | hmem
      · have h2 := noStateTrace_not_mem (session_nonstate cfg w.session) hmem
        simp [Request.isCatalogueState] at h2
      · simp only [List.mem_singleton, Request.batchEditPut.injEq] at hmem
        exact ⟨hmem.1, hmem.2.1⟩

/-- Every batch-edit request `updateRecordTitle` emits targets the argument's
record and carries the schema-selected title locator with the replace
envelope. -/
theorem updateRecordTitle_batchEdit_mem (cfg : HandlerConfig) (w : TitleWorld)
    (args : UpdateRecordTitleArgs) (u : String) (b : List EditItem) (c : String)
    (hmem : Request.batchEditPut u b c ∈ (updateRecordTitle cfg w args).1) :
    u = args.uuid ∧
    b = [⟨titleXPath (schemaOf w.xml),
          "<gn_replace>" ++ args.title ++ "</gn_replace>"⟩] := by
  by_cases hcred : cfg.username = "" ∨ cfg.password = ""
  · rw [updateRecordTitle, withAuth_noCreds _ _ _ _ hcred] at hmem
    simp at hmem
  · push_neg at hcred
    cases hs : (getAuthenticatedSession cfg w.session).2 with
    | none =>
      rw [updateRecordTitle, withAuth_sessFail _ _ _ _ hcred.1 hcred.2 hs] at hmem
      have h2 := noStateTrace_not_mem (session_nonstate cfg w.session) hmem
      simp [Request.isCatalogueState] at h2
    | some sess =>
      rw [updateRecordTitle, withAuth_sessOk _ _ _ _ sess hcred.1 hcred.2 hs] at hmem
      simp only [List.mem_append] at hmem
      rcases hmem with hmem | hmem
      · have h2 := noStateTrace_not_mem (session_nonstate cfg w.session) hmem
        simp [Request.isCatalogueState] at h2
      · simp only [List.mem_cons, List.mem_singleton, Request.batchEditPut.injEq,
          List.not_mem_nil, or_false] at hmem
        rcases hmem with hmem | ⟨h1, h2, _⟩
        · exact absurd hmem (by simp)
        · exact ⟨h1, h2⟩

/-! ## Claim C8 -/

/-- **C8**: Every tool that requires authentication (update_record,
update_record_title, add_record_tags, delete_record_tags, duplicate_record,
upload_resource_from_url, delete_attachment), when called with an empty
username or an empty password, returns the in-band error result (isError set,
explanatory text) with an empty request trace — zero network calls, checked
before any other work, never thrown. -/
theorem C8_empty_credentials_short_circuit :
    (∀ (cfg : HandlerConfig) (w : UpdateWorld) (args : UpdateRecordArgs),
      cfg.username = "" ∨ cfg.password = "" →
      updateRecord cfg w args = ([], .errorResult (authRequiredMsg "update_record")))
  ∧ (∀ (cfg : HandlerConfig) (w : TitleWorld) (args : UpdateRecordTitleArgs),
      cfg.username = "" ∨ cfg.password = "" →
      updateRecordTitle cfg w args =
        ([], .errorResult (authRequiredMsg "update_record_title")))
  ∧ (∀ (cfg : HandlerConfig) (w : SimpleWorld) (args : TagsArgs),
      cfg.username = "" ∨ cfg.password = "" →
      addRecordTags cfg w args = ([], .errorResult (authRequiredMsg "add_record_tags")))
  ∧ (∀ (cfg : HandlerConfig) (w : SimpleWorld) (args : TagsArgs),
      cfg.username = "" ∨ cfg.password = "" →
      deleteRecordTags cfg w args =
        ([], .errorResult (authRequiredMsg "delete_record_tags")))
  ∧ (∀ (cfg : HandlerConfig) (w : DuplicateWorld) (args : DuplicateRecordArgs),
      cfg.username = "" ∨ cfg.password = "" →
      duplicateRecord cfg w args =
        ([], .errorResult (authRequiredMsg "duplicate_record")))
  ∧ (∀ (cfg : HandlerConfig) (w : SimpleWorld) (args : UploadResourceFromUrlArgs),
      cfg.username = "" ∨ cfg.password = "" →
      uploadResourceFromUrl cfg w args =
        ([], .errorResult (authRequiredMsg "upload_resource_from_url")))
  ∧ (∀ (cfg : HandlerConfig) (w : SimpleWorld) (args : DeleteAttachmentArgs),
      cfg.username = "" ∨ cfg.password = "" →
      deleteAttachment cfg w args =
        ([], .errorResult (authRequiredMsg "delete_attachment"))) :=
  ⟨fun _ _ _ h => withAuth_noCreds _ _ _ _ h,
   fun _ _ _ h => withAuth_noCreds _ _ _ _ h,
   fun _ _ _ h => withAuth_noCreds _ _ _ _ h,
   fun _ _ _ h => withAuth_noCreds _ _ _ _ h,
   fun _ _ _ h => withAuth_noCreds _ _ _ _ h,
   fun _ _ _ h => withAuth_noCreds _ _ _ _ h,
   fun _ _ _ h => withAuth_noCreds _ _ _ _ h⟩

/-- Witness for C8: a concrete call with an empty username returns the
in-band error and sends nothing. -/
theorem C8_empty_credentials_short_circuit_witness :
    updateRecord ⟨100, "", "secret"⟩ ⟨⟨none, none⟩, true⟩
        ⟨"r1", "xp", "v", none, none⟩ =
      ([], .errorResult (authRequiredMsg "update_record")) ∧
    duplicateRecord ⟨100, "admin", ""⟩ ⟨⟨none, none⟩, none, none⟩
        ⟨"src", none, none, none, none⟩ =
      ([], .errorResult (authRequiredMsg "duplicate_record")) :=
  ⟨C8_empty_credentials_short_circuit.1 _ _ _ (Or.inl rfl),
   C8_empty_credentials_short_circuit.2.2.2.2.1 _ _ _ (Or.inr rfl)⟩

/-! ## Claim C1 -/

/-- Counterexample to **C1** as stated: a sign-in response with no
`set-cookie` tokens at all (and a token-less step-2 response) completes the
handshake with both extracted tokens empty, yet `update_record` still sends
its batch-edit PUT — a downstream request against catalogue state — with an
empty `Cookie` header. -/
theorem C1_counterexample :
    (getAuthenticatedSession ⟨100, "u", "p"⟩ ⟨some [], some []⟩).2 =
      some ⟨"", "", ""⟩ ∧
    noStateTrace (updateRecord ⟨100, "u", "p"⟩ ⟨⟨some [], some []⟩, true⟩
      ⟨"r1", "xp", "v", none, none⟩).1 = false := by
  constructor
  · rfl
  · rfl

/-- **C1** (amended): a privileged call sends no catalogue-state request only
when session acquisition throws (failed sign-in POST, or failed step-2 GET);
this holds for all seven privileged handlers.  When the handshake completes —
even with both extracted tokens empty — the privileged request is sent
anyway, with whatever cookie header (possibly empty) was composed. -/
theorem C1_no_state_request_when_session_throws :
    (∀ (cfg : HandlerConfig) (w : UpdateWorld) (args : UpdateRecordArgs),
      (getAuthenticatedSession cfg w.session).2 = none →
      noStateTrace (updateRecord cfg w args).1 = true)
  ∧ (∀ (cfg : HandlerConfig) (w : TitleWorld) (args : UpdateRecordTitleArgs),
      (getAuthenticatedSession cfg w.session).2 = none →
      noStateTrace (updateRecordTitle cfg w args).1 = true)
  ∧ (∀ (cfg : HandlerConfig) (w : SimpleWorld) (args : TagsArgs),
      (getAuthenticatedSession cfg w.session).2 = none →
      noStateTrace (addRecordTags cfg w args).1 = true)
  ∧ (∀ (cfg : HandlerConfig) (w : SimpleWorld) (args : TagsArgs),
      (getAuthenticatedSession cfg w.session).2 = none →
      noStateTrace (deleteRecordTags cfg w args).1 = true)
  ∧ (∀ (cfg : HandlerConfig) (w : DuplicateWorld) (args : DuplicateRecordArgs),
      (getAuthenticatedSession cfg w.session).2 = none →
      noStateTrace (duplicateRecord cfg w args).1 = true)
  ∧ (∀ (cfg : HandlerConfig) (w : SimpleWorld) (args : UploadResourceFromUrlArgs),
      (getAuthenticatedSession cfg w.session).2 = none →
      noStateTrace (uploadResourceFromUrl cfg w args).1 = true)
  ∧ (∀ (cfg : HandlerConfig) (w : SimpleWorld) (args : DeleteAttachmentArgs),
      (getAuthenticatedSession cfg w.session).2 = none →
      noStateTrace (deleteAttachment cfg w args).1 = true)
  ∧ (∀ (cfg : HandlerConfig) (w : UpdateWorld) (args : UpdateRecordArgs)
        (sess : Session),
      ¬cfg.username = "" → ¬cfg.password = "" →
      (getAuthenticatedSession cfg w.session).2 = some sess →
      (updateRecord cfg w args).1 =
        (getAuthenticatedSession cfg w.session).1 ++
          [Request.batchEditPut args.uuid
            [⟨args.xpath, wrapValue (args.operation.getD "replace") args.value⟩]
            sess.cookieHeader]) := by
  refine ⟨fun _ _ _ h => withAuth_sessFail_nonstate _ _ _ _ h,
    fun _ _ _ h => withAuth_sessFail_nonstate _ _ _ _ h,
    fun _ _ _ h => withAuth_sessFail_nonstate _ _ _ _ h,
    fun _ _ _ h => withAuth_sessFail_nonstate _ _ _ _ h,
    fun _ _ _ h => withAuth_sessFail_nonstate _ _ _ _ h,
    fun _ _ _ h => withAuth_sessFail_nonstate _ _ _ _ h,
    fun _ _ _ h => withAuth_sessFail_nonstate _ _ _ _ h,
    fun cfg w args sess hu hp hs => ?_⟩
  rw [updateRecord, withAuth_sessOk _ _ _ _ sess hu hp hs]

/-- Witness for C1 (amended): with a rejected sign-in POST, a concrete
`update_record` call sends only the sign-in request; and a concrete completed
handshake leads to exactly the handshake trace plus the batch-edit PUT. -/
theorem C1_no_state_request_when_session_throws_witness :
    noStateTrace (updateRecord ⟨100, "u", "p"⟩ ⟨⟨none, none⟩, true⟩
      ⟨"r1", "xp", "v", none, none⟩).1 = true ∧
    (updateRecord ⟨100, "u", "p"⟩
        ⟨⟨some ["GNSESSIONID=g; Path=/", "JSESSIONID=j; Path=/"], none⟩, true⟩
        ⟨"r1", "xp", "v", none, none⟩).1 =
      (getAuthenticatedSession ⟨100, "u", "p"⟩
        ⟨some ["GNSESSIONID=g; Path=/", "JSESSIONID=j; Path=/"], none⟩).1 ++
        [Request.batchEditPut "r1" [⟨"xp", wrapValue "replace" "v"⟩]
          "JSESSIONID=j; GNSESSIONID=g"] :=
  ⟨C1_no_state_request_when_session_throws.1 _ _ _ rfl,
   C1_no_state_request_when_session_throws.2.2.2.2.2.2.2 _ _ _
     ⟨"g", "j", "JSESSIONID=j; GNSESSIONID=g"⟩
     (by decide) (by decide) (by decide)⟩

/-! ## Claim C9 -/

/-- **C9**: no session state survives a call — every privileged handler,
given configured credentials, performs its own complete login handshake:
its trace contains exactly one sign-in request, whatever the world does;
and traces of sequential calls add their sign-in counts, so two sequential
privileged calls perform two independent sign-ins. -/
theorem C9_fresh_login_per_call :
    (∀ (cfg : HandlerConfig) (w : UpdateWorld) (args : UpdateRecordArgs),
      ¬cfg.username = "" → ¬cfg.password = "" →
      countSignins (updateRecord cfg w args).1 = 1)
  ∧ (∀ (cfg : HandlerConfig) (w : TitleWorld) (args : UpdateRecordTitleArgs),
      ¬cfg.username = "" → ¬cfg.password = "" →
      countSignins (updateRecordTitle cfg w args).1 = 1)
  ∧ (∀ (cfg : HandlerConfig) (w : SimpleWorld) (args : TagsArgs),
      ¬cfg.username = "" → ¬cfg.password = "" →
      countSignins (addRecordTags cfg w args).1 = 1)
  ∧ (∀ (cfg : HandlerConfig) (w : SimpleWorld) (args : TagsArgs),
      ¬cfg.username = "" → ¬cfg.password = "" →
      countSignins (deleteRecordTags cfg w args).1 = 1)
  ∧ (∀ (cfg : HandlerConfig) (w : DuplicateWorld) (args : DuplicateRecordArgs),
      ¬cfg.username = "" → ¬cfg.password = "" →
      countSignins (duplicateRecord cfg w args).1 = 1)
  ∧ (∀ (cfg : HandlerConfig) (w : SimpleWorld) (args : UploadResourceFromUrlArgs),
      ¬cfg.username = "" → ¬cfg.password = "" →
      countSignins (uploadResourceFromUrl cfg w args).1 = 1)
  ∧ (∀ (cfg : HandlerConfig) (w : SimpleWorld) (args : DeleteAttachmentArgs),
      ¬cfg.username = "" → ¬cfg.password = "" →
      countSignins (deleteAttachment cfg w args).1 = 1)
  ∧ (∀ t1 t2 : List Request,
      countSignins (t1 ++ t2) = countSignins t1 + countSignins t2) := by
  refine ⟨?_, ?_, ?_, ?_, ?_, ?_, ?_, ?_⟩
  · intro cfg w args hu hp
    exact withAuth_countSignins _ _ _ _ hu hp fun _ => rfl
  · intro cfg w args hu hp
    exact withAuth_countSignins _ _ _ _ hu hp fun _ => rfl
  · intro cfg w args hu hp
    exact withAuth_countSignins _ _ _ _ hu hp fun _ => rfl
  · intro cfg w args hu hp
    exact withAuth_countSignins _ _ _ _ hu hp fun _ => rfl
  · intro cfg w args hu hp
    refine withAuth_countSignins _ _ _ _ hu hp fun sess => ?_
    rcases w with ⟨ws, wd, wl⟩
    cases wd with
    | none => rfl
    | some d =>
      cases hid : dupNewId d with
      | objRef => simp [hid, countSignins, List.countP_cons, Request.isSignin]
      | num n =>
        by_cases hc : (jsTruthyStr (dupNewUuid d) || n == 0) = true
        · simp [hid, hc, countSignins, List.countP_cons, Request.isSignin]
        · simp only [Bool.not_eq_true] at hc
          simp [hid, hc, countSignins, List.countP_cons, Request.isSignin,
            List.countP_append]
  · intro cfg w args hu hp
    exact withAuth_countSignins _ _ _ _ hu hp fun _ => rfl
  · intro cfg w args hu hp
    exact withAuth_countSignins _ _ _ _ hu hp fun _ => rfl
  · intro t1 t2
    simp [countSignins, List.countP_append]

/-- Witness for C9: two concrete sequential privileged calls trigger two
independent sign-in requests. -/
theorem C9_fresh_login_per_call_witness :
    countSignins ((updateRecord ⟨100, "u", "p"⟩ ⟨⟨none, none⟩, true⟩
        ⟨"r1", "xp", "v", none, none⟩).1 ++
      (duplicateRecord ⟨100, "u", "p"⟩ ⟨⟨none, none⟩, none, none⟩
        ⟨"src", none, none, none, none⟩).1) = 2 := by
  rw [C9_fresh_login_per_call.2.2.2.2.2.2.2,
    C9_fresh_login_per_call.1 _ _ _ (by decide) (by decide),
    C9_fresh_login_per_call.2.2.2.2.1 _ _ _ (by decide) (by decide)]

/-- Any successfully acquired session stores exactly the cookie header built
from its two stored tokens. -/
theorem session_result_cases (cfg : HandlerConfig) (w : SessionWorld) :
    (getAuthenticatedSession cfg w).2 = none ∨
    ∃ gn js, (getAuthenticatedSession cfg w).2 =
      some ⟨gn, js, buildCookieHeader gn js⟩ := by
  rcases w with ⟨sc, si⟩
  cases sc with
  | none => exact Or.inl rfl
  | some cookies =>
    simp only [getAuthenticatedSession]
    by_cases h : (scanCookies "JSESSIONID=" cookies "" == "") = true
    · cases si with
      | none => exact Or.inl (by simp [h])
      | some s2 =>
        exact Or.inr ⟨scanCookies "GNSESSIONID=" cookies "",
          scanCookies "JSESSIONID=" s2 (scanCookies "JSESSIONID=" cookies ""),
          by simp [h]⟩
    · exact Or.inr ⟨scanCookies "GNSESSIONID=" cookies "",
        scanCookies "JSESSIONID=" cookies "", by simp [h]⟩

/-- Sign-in succeeded without a secondary token and the step-2 GET throws:
the whole handshake throws. -/
theorem session_step2_fail (cfg : HandlerConfig) (cookies : List String)
    (hjs : scanCookies "JSESSIONID=" cookies "" = "") :
    (getAuthenticatedSession cfg ⟨some cookies, none⟩).2 = none := by
  simp [getAuthenticatedSession, hjs]

/-- Sign-in succeeded without a secondary token and the step-2 GET succeeds
but also yields none: the handshake completes with the primary token alone. -/
theorem session_step2_noToken (cfg : HandlerConfig) (cookies s2 : List String)
    (hjs : scanCookies "JSESSIONID=" cookies "" = "")
    (hjs2 : scanCookies "JSESSIONID=" s2 "" = "") :
    (getAuthenticatedSession cfg ⟨some cookies, some s2⟩).2 =
      some ⟨scanCookies "GNSESSIONID=" cookies "", "",
        buildCookieHeader (scanCookies "GNSESSIONID=" cookies "") ""⟩ := by
  simp [getAuthenticatedSession, hjs, hjs2]

/-! ## Claim C3 -/

/-- Counterexample to **C3** as stated: when sign-in yields primary token `g`
and secondary token `j`, the composed header is
`"JSESSIONID=j; GNSESSIONID=g"` — the secondary token comes first — not the
claimed primary-first `"GNSESSIONID=g; JSESSIONID=j"`. -/
theorem C3_counterexample :
    (getAuthenticatedSession ⟨100, "u", "p"⟩
        ⟨some ["GNSESSIONID=g; Path=/", "JSESSIONID=j; Path=/"], some []⟩).2 =
      some ⟨"g", "j", "JSESSIONID=j; GNSESSIONID=g"⟩ ∧
    ("JSESSIONID=j; GNSESSIONID=g" : String) ≠ "GNSESSIONID=g; JSESSIONID=j" := by
  exact ⟨rfl, by decide⟩

/-- Modelled from the amended C3 sentence: the Cookie header joins only the
non-empty tokens with `"; "`, secondary-session token (JSESSIONID) first,
then primary-session token (GNSESSIONID). -/
def cookieHeaderSpecC3 (gn js : String) : String :=
  String.intercalate "; "
    (List.map (fun p => p.1 ++ "=" ++ p.2)
      (List.filter (fun p => p.2 != "") [("JSESSIONID", js), ("GNSESSIONID", gn)]))

/-- **C3** (amended): for every session acquisition that completes, the
composed Cookie header is exactly the non-empty tokens joined with `"; "`
in the order secondary-session token (JSESSIONID) first, then
primary-session token (GNSESSIONID); empty tokens contribute nothing. -/
theorem C3_cookie_header_order (cfg : HandlerConfig) (w : SessionWorld)
    (sess : Session) (h : (getAuthenticatedSession cfg w).2 = some sess) :
    sess.cookieHeader = cookieHeaderSpecC3 sess.gnSessionId sess.jsSessionId := by
  have hbuild : ∀ gn js : String,
      buildCookieHeader gn js = cookieHeaderSpecC3 gn js := by
    intro gn js
    by_cases hj : js = "" <;> by_cases hg : gn = "" <;>
      simp [buildCookieHeader, cookieHeaderSpecC3, hj, hg]
  rcases session_result_cases cfg w with h2 | ⟨gn, js, h2⟩
  · rw [h2] at h
    exact absurd h (by simp)
  · rw [h2, Option.some_inj] at h
    rw [← h]
    exact hbuild gn js

/-- Witness for C3 (amended): the concrete acquisition with both tokens
present stores the JSESSIONID-first header. -/
theorem C3_cookie_header_order_witness :
    Session.cookieHeader ⟨"g", "j", "JSESSIONID=j; GNSESSIONID=g"⟩ =
      cookieHeaderSpecC3 "g" "j" :=
  C3_cookie_header_order ⟨100, "u", "p"⟩
    ⟨some ["GNSESSIONID=g; Path=/", "JSESSIONID=j; Path=/"], some []⟩
    ⟨"g", "j", "JSESSIONID=j; GNSESSIONID=g"⟩ rfl

/-! ## Claim C4 -/

/-- Counterexample to **C4** as stated: sign-in yields only the primary token
`g`; the step-2 GET to the info endpoint fails; the claim says the privileged
call proceeds with the primary token alone, but `update_record` throws and
sends no catalogue-state request at all. -/
theorem C4_counterexample :
    (updateRecord ⟨100, "u", "p"⟩ ⟨⟨some ["GNSESSIONID=g; Path=/"], none⟩, true⟩
      ⟨"r1", "xp", "v", none, none⟩).2 = ToolResult.thrown ∧
    noStateTrace (updateRecord ⟨100, "u", "p"⟩
      ⟨⟨some ["GNSESSIONID=g; Path=/"], none⟩, true⟩
      ⟨"r1", "xp", "v", none, none⟩).1 = true := by
  exact ⟨rfl, rfl⟩

/-- **C4** (amended): when the secondary token (JSESSIONID) was not obtained
in step 1, a failure of the step-2 GET ABORTS the privileged call — the
exception propagates and no catalogue-state request is sent (shown for
update_record and duplicate_record, whose session logic is the shared
handshake); the call proceeds with the primary token alone only when the
step-2 GET succeeds without yielding a secondary token. -/
theorem C4_step2_failure_aborts :
    (∀ (cfg : HandlerConfig) (cookies : List String) (w : UpdateWorld)
        (args : UpdateRecordArgs),
      ¬cfg.username = "" → ¬cfg.password = "" →
      w.session = ⟨some cookies, none⟩ →
      scanCookies "JSESSIONID=" cookies "" = "" →
      (updateRecord cfg w args).2 = .thrown ∧
      noStateTrace (updateRecord cfg w args).1 = true)
  ∧ (∀ (cfg : HandlerConfig) (cookies : List String) (w : DuplicateWorld)
        (args : DuplicateRecordArgs),
      ¬cfg.username = "" → ¬cfg.password = "" →
      w.session = ⟨some cookies, none⟩ →
      scanCookies "JSESSIONID=" cookies "" = "" →
      (duplicateRecord cfg w args).2 = .thrown ∧
      noStateTrace (duplicateRecord cfg w args).1 = true)
  ∧ (∀ (cfg : HandlerConfig) (cookies s2 : List String) (w : UpdateWorld)
        (args : UpdateRecordArgs),
      ¬cfg.username = "" → ¬cfg.password = "" →
      w.session = ⟨some cookies, some s2⟩ →
      scanCookies "JSESSIONID=" cookies "" = "" →
      scanCookies "JSESSIONID=" s2 "" = "" →
      Request.batchEditPut args.uuid
          [⟨args.xpath, wrapValue (args.operation.getD "replace") args.value⟩]
          (buildCookieHeader (scanCookies "GNSESSIONID=" cookies "") "")
        ∈ (updateRecord cfg w args).1) := by
  refine ⟨?_, ?_, ?_⟩
  · intro cfg cookies w args hu hp hw hjs
    have hs : (getAuthenticatedSession cfg w.session).2 = none := by
      rw [hw]; exact session_step2_fail cfg cookies hjs
    constructor
    · rw [updateRecord, withAuth_sessFail _ _ _ _ hu hp hs]
    · exact withAuth_sessFail_nonstate _ _ _ _ hs
  · intro cfg cookies w args hu hp hw hjs
    have hs : (getAuthenticatedSession cfg w.session).2 = none := by
      rw [hw]; exact session_step2_fail cfg cookies hjs
    constructor
    · rw [duplicateRecord, withAuth_sessFail _ _ _ _ hu hp hs]
    · exact withAuth_sessFail_nonstate _ _ _ _ hs
  · intro cfg cookies s2 w args hu hp hw hjs hjs2
    have hs : (getAuthenticatedSession cfg w.session).2 =
        some ⟨scanCookies "GNSESSIONID=" cookies "", "",
          buildCookieHeader (scanCookies "GNSESSIONID=" cookies "") ""⟩ := by
      rw [hw]; exact session_step2_noToken cfg cookies s2 hjs hjs2
    rw [updateRecord, withAuth_sessOk _ _ _ _ _ hu hp hs]
    simp

/-- Witness for C4 (amended): concrete aborted call (step-2 GET fails) and
concrete call that proceeds with the primary token alone. -/
theorem C4_step2_failure_aborts_witness :
    ((updateRecord ⟨100, "u", "p"⟩ ⟨⟨some ["GNSESSIONID=g"], none⟩, true⟩
        ⟨"r1", "xp", "v", none, none⟩).2 = .thrown ∧
      noStateTrace (updateRecord ⟨100, "u", "p"⟩
        ⟨⟨some ["GNSESSIONID=g"], none⟩, true⟩
        ⟨"r1", "xp", "v", none, none⟩).1 = true) ∧
    Request.batchEditPut "r1" [⟨"xp", wrapValue ((none : Option String).getD "replace") "v"⟩]
        (buildCookieHeader (scanCookies "GNSESSIONID=" ["GNSESSIONID=g"] "") "")
      ∈ (updateRecord ⟨100, "u", "p"⟩ ⟨⟨some ["GNSESSIONID=g"], some []⟩, true⟩
          ⟨"r1", "xp", "v", none, none⟩).1 :=
  ⟨C4_step2_failure_aborts.1 ⟨100, "u", "p"⟩ ["GNSESSIONID=g"] _ _
      (by decide) (by decide) rfl (by decide),
   C4_step2_failure_aborts.2.2 ⟨100, "u", "p"⟩ ["GNSESSIONID=g"] [] _ _
      (by decide) (by decide) rfl (by decide) (by decide)⟩

/-! ## Claim C2 -/

/-- **C2**: every search_records call sends upstream the size
`min(requestedSize, configuredMax)`, and the response data carries a
truncation notice naming the returned count and the total — text containing
"limited to \<returned\> of \<total\>" — exactly when the upstream total hit
count exceeds that effective size; in particular, for size 500, configured
max 100, total 237 the notice states "limited to 100 of 237". -/
theorem C2_search_clamp_and_truncation :
    (∀ (cfg : HandlerConfig) (args : SearchRecordsArgs) (resp : SearchRespData),
      (searchRecords cfg (some resp) args).1 =
        [Request.searchPost (buildSearchBody cfg args)]
      ∧ (buildSearchBody cfg args).size =
          min (args.size.getD 10) cfg.maxSearchResults
      ∧ ∀ out : SearchOut, (searchRecords cfg (some resp) args).2 = .success out →
          ((out.warning ≠ none ↔ (buildSearchBody cfg args).size < out.totalHits)
           ∧ ∀ s, out.warning = some s →
              s = "Results limited to " ++ toString (buildSearchBody cfg args).size
                ++ " of " ++ toString out.totalHits
                ++ " total. Use 'from' parameter to paginate."))
  ∧ ((searchRecords ⟨100, "u", "p"⟩ (some ⟨some 237⟩)
        ⟨none, none, some 500, none, none, none⟩).2 =
      .success ⟨237,
        some "Results limited to 100 of 237 total. Use 'from' parameter to paginate."⟩
     ∧ jsIncludes
         "Results limited to 100 of 237 total. Use 'from' parameter to paginate."
         "limited to 100 of 237" = true) := by
  constructor
  · intro cfg args resp
    refine ⟨rfl, rfl, ?_⟩
    intro out hout
    simp only [searchRecords] at hout
    rw [ToolResult.success.injEq] at hout
    subst hout
    by_cases hlt : (buildSearchBody cfg args).size <
        (match resp.totalValue with
         | some v => if v == 0 then 0 else v
         | none => 0)
    · simp only [if_pos hlt]
      exact ⟨by simpa using hlt, fun s hs => by simpa using hs.symm⟩
    · simp only [if_neg hlt]
      exact ⟨by simpa using hlt, fun s hs => by simp at hs⟩
  · exact ⟨rfl, rfl⟩

/-- Witness for C2: at the scenario instance the notice is present and the
iff holds with the clamped size 100 and total 237. -/
theorem C2_search_clamp_and_truncation_witness :
    ((some "Results limited to 100 of 237 total. Use 'from' parameter to paginate." :
        Option String) ≠ none ↔
      (buildSearchBody ⟨100, "u", "p"⟩ ⟨none, none, some 500, none, none, none⟩).size
        < (237 : Int)) :=
  ((C2_search_clamp_and_truncation.1 ⟨100, "u", "p"⟩
      ⟨none, none, some 500, none, none, none⟩ ⟨some 237⟩).2.2
    ⟨237, some "Results limited to 100 of 237 total. Use 'from' parameter to paginate."⟩
    C2_search_clamp_and_truncation.2.1).1

/-! ## Claim C6 -/

/-- **C6**: every update_record batch-edit payload is a one-element array
pairing the given xpath with the wrapped value; operation "delete" always
produces the empty delete marker regardless of the supplied value, and
"add"/"replace" wrap the literal supplied value unchanged in their envelope
tags. -/
theorem C6_update_envelope :
    (∀ v : String, wrapValue "delete" v = "<gn_delete/>")
  ∧ (∀ v : String, wrapValue "add" v = "<gn_add>" ++ v ++ "</gn_add>")
  ∧ (∀ v : String, wrapValue "replace" v = "<gn_replace>" ++ v ++ "</gn_replace>")
  ∧ (∀ (cfg : HandlerConfig) (w : UpdateWorld) (args : UpdateRecordArgs)
        (u : String) (b : List EditItem) (c : String),
      Request.batchEditPut u b c ∈ (updateRecord cfg w args).1 →
      b = [⟨args.xpath, wrapValue (args.operation.getD "replace") args.value⟩]
      ∧ u = args.uuid) :=
  ⟨fun _ => rfl, fun _ => rfl, fun _ => rfl,
   fun cfg w args u b c hmem =>
     (updateRecord_batchEdit_mem cfg w args u b c hmem).symm⟩

/-- Witness for C6: a concrete delete-operation call emits the one-element
payload with the empty delete marker, ignoring the supplied value. -/
theorem C6_update_envelope_witness :
    ([⟨"xp", "<gn_delete/>"⟩] : List EditItem) =
      [⟨"xp", wrapValue ((some "delete" : Option String).getD "replace") "ignored"⟩]
    ∧ ("r1" : String) = "r1" :=
  C6_update_envelope.2.2.2 ⟨100, "u", "p"⟩
    ⟨⟨some ["GNSESSIONID=g; JSESSIONID=j"], some []⟩, true⟩
    ⟨"r1", "xp", "ignored", some "delete", none⟩
    "r1" [⟨"xp", "<gn_delete/>"⟩] "JSESSIONID=j; GNSESSIONID=g" (by decide)

/-! ## Claim C10 -/

/-- **C10**: any update_record operation string other than "add" or "delete"
— including an absent operation — wraps the supplied value in the replace
envelope; unrecognized operation names behave exactly like "replace" and are
not rejected. -/
theorem C10_unknown_operation_is_replace :
    (∀ op v : String, ¬op = "add" → ¬op = "delete" →
      wrapValue op v = "<gn_replace>" ++ v ++ "</gn_replace>")
  ∧ (∀ v : String,
      wrapValue ((none : Option String).getD "replace") v =
        "<gn_replace>" ++ v ++ "</gn_replace>")
  ∧ (∀ (cfg : HandlerConfig) (w : UpdateWorld) (args : UpdateRecordArgs)
        (u : String) (b : List EditItem) (c : String),
      ¬args.operation.getD "replace" = "add" →
      ¬args.operation.getD "replace" = "delete" →
      Request.batchEditPut u b c ∈ (updateRecord cfg w args).1 →
      b = [⟨args.xpath, "<gn_replace>" ++ args.value ++ "</gn_replace>"⟩]) := by
  have h1 : ∀ op v : String, ¬op = "add" → ¬op = "delete" →
      wrapValue op v = "<gn_replace>" ++ v ++ "</gn_replace>" := by
    intro op v ha hd
    simp [wrapValue, ha, hd]
  refine ⟨h1, fun v => rfl, ?_⟩
  intro cfg w args u b c ha hd hmem
  rw [(updateRecord_batchEdit_mem cfg w args u b c hmem).2,
    h1 _ args.value ha hd]

/-- Witness for C10: the unrecognized operation "frobnicate" produces the
replace envelope. -/
theorem C10_unknown_operation_is_replace_witness :
    wrapValue "frobnicate" "v" = "<gn_replace>" ++ "v" ++ "</gn_replace>" :=
  C10_unknown_operation_is_replace.1 "frobnicate" "v" (by decide) (by decide)

/-! ## Claim C7 -/

/-- **C7**: update_record_title's schema detection is a deterministic
function of the exported content: content containing an older-dialect (gmd)
marker selects the ISO 19139 locator; content with no gmd marker — and any
detection failure — selects the ISO 19115-3 locator; and every batch-edit
request the handler emits uses exactly the locator determined by the fetched
content, so the same content always yields the same dialect and locator. -/
theorem C7_schema_detection :
    (∀ xml : String,
      (jsIncludes xml "gmd:MD_Metadata" || jsIncludes xml "xmlns:gmd=") = true →
      schemaOf (some xml) = "iso19139" ∧
      titleXPath (schemaOf (some xml)) =
        "gmd:identificationInfo/*/gmd:citation/gmd:CI_Citation/gmd:title/gco:CharacterString")
  ∧ (∀ xml : String,
      (jsIncludes xml "gmd:MD_Metadata" || jsIncludes xml "xmlns:gmd=") = false →
      titleXPath (schemaOf (some xml)) =
        "mdb:identificationInfo/*/mri:citation/cit:CI_Citation/cit:title/gco:CharacterString")
  ∧ (schemaOf none = "iso19115-3" ∧
     titleXPath (schemaOf none) =
       "mdb:identificationInfo/*/mri:citation/cit:CI_Citation/cit:title/gco:CharacterString")
  ∧ (∀ (cfg : HandlerConfig) (w : TitleWorld) (args : UpdateRecordTitleArgs)
        (u : String) (b : List EditItem) (c : String),
      Request.batchEditPut u b c ∈ (updateRecordTitle cfg w args).1 →
      b = [⟨titleXPath (schemaOf w.xml),
            "<gn_replace>" ++ args.title ++ "</gn_replace>"⟩]
      ∧ u = args.uuid) := by
  refine ⟨?_, ?_, ⟨rfl, rfl⟩, ?_⟩
  · intro xml h
    constructor
    · simp [schemaOf, detectSchema, h]
    · simp [schemaOf, detectSchema, h, titleXPath]
  · intro xml h
    have hdet : detectSchema xml = "iso19115-3" := by
      simp only [detectSchema, h, Bool.false_eq_true, if_false, ite_self]
    simp [schemaOf, hdet, titleXPath]
  · intro cfg w args u b c hmem
    exact (updateRecordTitle_batchEdit_mem cfg w args u b c hmem).symm

/-- Witness for C7: a record exported with the gmd marker gets the older
dialect's locator; one without markers gets the newer dialect's locator;
a concrete handler run with gmd content emits the gmd locator. -/
theorem C7_schema_detection_witness :
    (schemaOf (some "<gmd:MD_Metadata xmlns:gmd=\"http://x\">") = "iso19139" ∧
     titleXPath (schemaOf (some "<gmd:MD_Metadata xmlns:gmd=\"http://x\">")) =
       "gmd:identificationInfo/*/gmd:citation/gmd:CI_Citation/gmd:title/gco:CharacterString")
    ∧ titleXPath (schemaOf (some "no recognizable marker")) =
        "mdb:identificationInfo/*/mri:citation/cit:CI_Citation/cit:title/gco:CharacterString"
    ∧ ([⟨titleXPath (schemaOf (some "<gmd:MD_Metadata>")),
          "<gn_replace>New title</gn_replace>"⟩] : List EditItem) =
        [⟨titleXPath (schemaOf (some "<gmd:MD_Metadata>")),
          "<gn_replace>" ++ "New title" ++ "</gn_replace>"⟩]
      ∧ ("r1" : String) = "r1" :=
  ⟨C7_schema_detection.1 "<gmd:MD_Metadata xmlns:gmd=\"http://x\">" (by decide),
   C7_schema_detection.2.1 "no recognizable marker" (by decide),
   C7_schema_detection.2.2.2 ⟨100, "u", "p"⟩
     ⟨⟨some ["GNSESSIONID=g; JSESSIONID=j"], some []⟩, some "<gmd:MD_Metadata>", true⟩
     ⟨"r1", "New title"⟩ "r1"
     [⟨titleXPath (schemaOf (some "<gmd:MD_Metadata>")),
       "<gn_replace>New title</gn_replace>"⟩]
     "JSESSIONID=j; GNSESSIONID=g" (by decide)⟩

/-! ## Claim C5 -/

/-- A trace with no catalogue-state request contains no lookup request. -/
theorem noStateTrace_countLookups {t : List Request}
    (h : noStateTrace t = true) : countLookups t = 0 := by
  rw [countLookups, List.countP_eq_zero]
  intro r hr
  have h2 := noStateTrace_not_mem h hr
  cases r <;> simp_all [Request.isLookup, Request.isCatalogueState]

/-- **C5**: in duplicate_record, an upstream response carrying a UUID issues
no secondary lookup; a response carrying only a numeric internal id issues
exactly one lookup — a term match on that id; and when that lookup returns
zero hits the final result is a success payload with no UUID and the numeric
id, not an error (scenario: `{id: 42}`, zero hits). -/
theorem C5_duplicate_lookup :
    (∀ (cfg : HandlerConfig) (w : DuplicateWorld) (args : DuplicateRecordArgs)
        (u : String) (mu : Option String) (i mi : Option Int),
      ¬u = "" → w.dup = some (.obj (some u) mu i mi) →
      countLookups (duplicateRecord cfg w args).1 = 0)
  ∧ (∀ (cfg : HandlerConfig) (w : DuplicateWorld) (args : DuplicateRecordArgs)
        (sess : Session) (n : Int),
      ¬cfg.username = "" → ¬cfg.password = "" →
      (getAuthenticatedSession cfg w.session).2 = some sess →
      ¬n = 0 → w.dup = some (.obj none none (some n) none) →
      countLookups (duplicateRecord cfg w args).1 = 1 ∧
      Request.lookupPost (toString n) ∈ (duplicateRecord cfg w args).1)
  ∧ ((duplicateRecord ⟨100, "u", "p"⟩
        ⟨⟨some ["GNSESSIONID=g; JSESSIONID=j"], some []⟩,
         some (.obj none none (some 42) none), some []⟩
        ⟨"src-uuid", none, none, none, none⟩).2 =
      .success ⟨.num 42, none, "src-uuid"⟩
     ∧ countLookups (duplicateRecord ⟨100, "u", "p"⟩
        ⟨⟨some ["GNSESSIONID=g; JSESSIONID=j"], some []⟩,
         some (.obj none none (some 42) none), some []⟩
        ⟨"src-uuid", none, none, none, none⟩).1 = 1) := by
  refine ⟨?_, ?_, ⟨rfl, rfl⟩⟩
  · intro cfg w args u mu i mi hu hdup
    by_cases hcred : cfg.username = "" ∨ cfg.password = ""
    · rw [duplicateRecord, withAuth_noCreds _ _ _ _ hcred]
      rfl
    · push_neg at hcred
      cases hs : (getAuthenticatedSession cfg w.session).2 with
      | none =>
        rw [duplicateRecord, withAuth_sessFail _ _ _ _ hcred.1 hcred.2 hs]
        exact noStateTrace_countLookups (session_nonstate cfg w.session)
      | some sess =>
        rw [duplicateRecord, withAuth_sessOk _ _ _ _ sess hcred.1 hcred.2 hs]
        simp only [countLookups, List.countP_append]
        have hsess : List.countP Request.isLookup
            (getAuthenticatedSession cfg w.session).1 = 0 :=
          noStateTrace_countLookups (session_nonstate cfg w.session)
        rw [hsess]
        have htr : jsTruthyStr (dupNewUuid (.obj (some u) mu i mi)) = true := by
          simp [dupNewUuid, jsOrStr, jsTruthyStr, hu]
        rw [hdup]
        cases hid : dupNewId (.obj (some u) mu i mi) with
        | objRef => simp [hid, List.countP_cons, Request.isLookup]
        | num n => simp [hid, htr, List.countP_cons, Request.isLookup]
  · intro cfg w args sess n hu hp hs hn hdup
    have hbeq : (n == 0) = false := by simpa using hn
    have htr : jsTruthyStr (dupNewUuid (.obj none none (some n) none)) = false := by
      simp [dupNewUuid, jsOrStr, jsTruthyStr]
    have hid : dupNewId (.obj none none (some n) none) = .num n := by
      simp [dupNewId, hbeq]
    rw [duplicateRecord, withAuth_sessOk _ _ _ _ sess hu hp hs, hdup]
    have hsess : List.countP Request.isLookup
        (getAuthenticatedSession cfg w.session).1 = 0 :=
      noStateTrace_countLookups (session_nonstate cfg w.session)
    constructor
    · simp only [countLookups, List.countP_append, hsess]
      simp [hid, htr, hbeq, List.countP_cons, Request.isLookup]
    · simp [hid, htr, hbeq]

/-- Witness for C5: a concrete duplicate whose response carries a UUID makes
no lookup, and one whose response carries only id 7 makes exactly one lookup
on "7". -/
theorem C5_duplicate_lookup_witness :
    countLookups (duplicateRecord ⟨100, "u", "p"⟩
      ⟨⟨some ["GNSESSIONID=g; JSESSIONID=j"], some []⟩,
       some (.obj (some "new-uuid") none (some 9) none), some []⟩
      ⟨"src", none, none, none, none⟩).1 = 0
    ∧ (countLookups (duplicateRecord ⟨100, "u", "p"⟩
        ⟨⟨some ["GNSESSIONID=g; JSESSIONID=j"], some []⟩,
         some (.obj none none (some 7) none), some []⟩
        ⟨"src", none, none, none, none⟩).1 = 1
       ∧ Request.lookupPost (toString (7 : Int)) ∈
          (duplicateRecord ⟨100, "u", "p"⟩
            ⟨⟨some ["GNSESSIONID=g; JSESSIONID=j"], some []⟩,
             some (.obj none none (some 7) none), some []⟩
            ⟨"src", none, none, none, none⟩).1) :=
  ⟨C5_duplicate_lookup.1 ⟨100, "u", "p"⟩ _ _ "new-uuid" none (some 9) none
      (by decide) rfl,
   C5_duplicate_lookup.2.1 ⟨100, "u", "p"⟩ _ _
      ⟨"g", "j", "JSESSIONID=j; GNSESSIONID=g"⟩ 7
      (by decide) (by decide) (by decide) (by decide) rfl⟩

end GN
